import Mathlib

/-!
# Cloud Cost Sentinel — verification of the scanner and pricing core

Shallow embedding of the cost-scanner repository: the pricing resolvers
(`aws_ebs_pricing.py`, `aws_ec2_pricing.py`, `aws_rds_pricing.py`,
`aws_s3_pricing.py`) and the four resource scanners (`ebs_scanner.py`,
`ec2_scanner.py`, `rds_scanner.py`, `s3_scanner.py`).

Modelling conventions:
* Python floats are modelled as rationals (`ℚ`); `round(x, 2)` is `roundTo2`.
* The AWS Price List API collaborator is a function parameter returning
  `Option ℚ` (`none` models "not found" and every caught failure; the code
  degrades both to the default table).  The in-process price cache is
  semantically transparent (cache hits return previously fetched values)
  and is not modelled.
* CloudWatch metric series are the lists of datapoint statistics the code
  iterates over (`Sum` or `Average` values).
* Timestamps are integers in epoch seconds; `timedelta(days = d)` is
  `d * 86400` seconds.
* Python dict records become structures; `dict.get(k, d)` on a typed record
  is the field itself.
-/

namespace CloudCostSentinel

/-- Python `round(x, 2)` at cent granularity (all values the claims compare
are exact multiples of a cent, so tie behaviour is irrelevant below). -/
def roundTo2 (q : ℚ) : ℚ := (round (q * 100) : ℤ) / 100

/-! ## `src/utils/aws_ebs_pricing.py` -/

namespace AwsEbsPricing

/-- Source `DEFAULT_EBS_PRICES`: fallback price per GB-month by volume type. -/
def DEFAULT_EBS_PRICES : List (String × ℚ) :=
  [(("standard"), 0.05),
   (("gp2"), 0.10),
   (("gp3"), 0.08),
   (("io1"), 0.125),
   (("io2"), 0.125),
   (("sc1"), 0.015),
   (("st1"), 0.045)]

/-- Source `DEFAULT_IOPS_PRICES`: provisioned-IOPS price per IOPS-month. -/
def DEFAULT_IOPS_PRICES : List (String × ℚ) :=
  [(("io1"), 0.065),
   (("io2"), 0.065),
   (("gp3"), 0.005)]

/-- Source `DEFAULT_GP3_THROUGHPUT_PRICE`: gp3 price per MB/s-month above 125 MB/s. -/
def DEFAULT_GP3_THROUGHPUT_PRICE : ℚ := 0.06

/-- Source `get_ebs_cost_per_gb(volume_type, region, use_api)`: tries the Price List
API when `use_api` is set (the collaborator is `apiPrice`; `none` covers both
"no pricing found" and caught client errors), then falls back to
`DEFAULT_EBS_PRICES.get(volume_type, DEFAULT_EBS_PRICES["gp2"])`. -/
def get_ebs_cost_per_gb (apiPrice : String → String → Option ℚ)
    (volumeType region : String) (useApi : Bool) : ℚ :=
  match (if useApi then apiPrice volumeType region else none) with
  | some p => p
  | none => (DEFAULT_EBS_PRICES.lookup volumeType).getD
      ((DEFAULT_EBS_PRICES.lookup ("gp2")).getD 0)

/-- Python truthiness of an `Optional[int]`: `None` and `0` are falsy. -/
def optTruthy (o : Option ℕ) : Bool :=
  match o with
  | none => false
  | some n => decide (0 < n)

/-- Source `calculate_ebs_monthly_cost`: base storage cost plus provisioned IOPS
cost (io1/io2 bill all IOPS; gp3 bills IOPS above the free 3000) plus gp3
throughput cost above the free 125 MB/s, rounded to 2 decimals. -/
def calculate_ebs_monthly_cost (apiPrice : String → String → Option ℚ)
    (volumeType : String) (sizeGb : ℕ) (region : String)
    (iops throughputMbps : Option ℕ) (useApi : Bool) : ℚ :=
  let pricePerGb := get_ebs_cost_per_gb apiPrice volumeType region useApi
  let baseCost : ℚ := (sizeGb : ℚ) * pricePerGb
  let iopsCost : ℚ :=
    if (volumeType = "io1" ∨ volumeType = "io2") ∧ optTruthy iops then
      ((iops.getD 0 : ℕ) : ℚ) * ((DEFAULT_IOPS_PRICES.lookup volumeType).getD 0.065)
    else if volumeType = "gp3" ∧ optTruthy iops ∧ 3000 < iops.getD 0 then
      ((iops.getD 0 - 3000 : ℕ) : ℚ) * ((DEFAULT_IOPS_PRICES.lookup ("gp3")).getD 0.005)
    else 0
  let throughputCost : ℚ :=
    if volumeType = "gp3" ∧ optTruthy throughputMbps ∧ 125 < throughputMbps.getD 0 then
      ((throughputMbps.getD 0 - 125 : ℕ) : ℚ) * DEFAULT_GP3_THROUGHPUT_PRICE
    else 0
  roundTo2 (baseCost + iopsCost + throughputCost)

end AwsEbsPricing

/-! ## `src/utils/aws_ec2_pricing.py` -/

namespace AwsEc2Pricing

/-- Source `DEFAULT_EC2_PRICES`: fallback Linux on-demand price per hour. -/
def DEFAULT_EC2_PRICES : List (String × ℚ) :=
  [
  (("t2.nano"), 0.0058),
  (("t2.micro"), 0.0116),
  (("t2.small"), 0.023),
  (("t2.medium"), 0.0464),
  (("t2.large"), 0.0928),
  (("t2.xlarge"), 0.1856),
  (("t2.2xlarge"), 0.3712),
  (("t3.nano"), 0.0052),
  (("t3.micro"), 0.0104),
  (("t3.small"), 0.0208),
  (("t3.medium"), 0.0416),
  (("t3.large"), 0.0832),
  (("t3.xlarge"), 0.1664),
  (("t3.2xlarge"), 0.3328),
  (("t3a.nano"), 0.0047),
  (("t3a.micro"), 0.0094),
  (("t3a.small"), 0.0188),
  (("t3a.medium"), 0.0376),
  (("t3a.large"), 0.0752),
  (("t3a.xlarge"), 0.1504),
  (("t3a.2xlarge"), 0.3008),
  (("m5.large"), 0.096),
  (("m5.xlarge"), 0.192),
  (("m5.2xlarge"), 0.384),
  (("m5.4xlarge"), 0.768),
  (("m5.8xlarge"), 1.536),
  (("m5.12xlarge"), 2.304),
  (("m5.16xlarge"), 3.072),
  (("m5.24xlarge"), 4.608),
  (("m6i.large"), 0.096),
  (("m6i.xlarge"), 0.192),
  (("m6i.2xlarge"), 0.384),
  (("m6i.4xlarge"), 0.768),
  (("m6i.8xlarge"), 1.536),
  (("m6i.12xlarge"), 2.304),
  (("m6i.16xlarge"), 3.072),
  (("m6i.24xlarge"), 4.608),
  (("m7i.large"), 0.1008),
  (("m7i.xlarge"), 0.2016),
  (("m7i.2xlarge"), 0.4032),
  (("m7i.4xlarge"), 0.8064),
  (("c5.large"), 0.085),
  (("c5.xlarge"), 0.17),
  (("c5.2xlarge"), 0.34),
  (("c5.4xlarge"), 0.68),
  (("c5.9xlarge"), 1.53),
  (("c5.12xlarge"), 2.04),
  (("c5.18xlarge"), 3.06),
  (("c5.24xlarge"), 4.08),
  (("c6i.large"), 0.085),
  (("c6i.xlarge"), 0.17),
  (("c6i.2xlarge"), 0.34),
  (("c6i.4xlarge"), 0.68),
  (("c6i.8xlarge"), 1.36),
  (("c6i.12xlarge"), 2.04),
  (("c6i.16xlarge"), 2.72),
  (("c6i.24xlarge"), 4.08),
  (("r5.large"), 0.126),
  (("r5.xlarge"), 0.252),
  (("r5.2xlarge"), 0.504),
  (("r5.4xlarge"), 1.008),
  (("r5.8xlarge"), 2.016),
  (("r5.12xlarge"), 3.024),
  (("r5.16xlarge"), 4.032),
  (("r5.24xlarge"), 6.048),
  (("r6i.large"), 0.126),
  (("r6i.xlarge"), 0.252),
  (("r6i.2xlarge"), 0.504),
  (("r6i.4xlarge"), 1.008),
  (("r6i.8xlarge"), 2.016),
  (("r6i.12xlarge"), 3.024),
  (("r6i.16xlarge"), 4.032),
  (("r6i.24xlarge"), 6.048),
  (("i3.large"), 0.156),
  (("i3.xlarge"), 0.312),
  (("i3.2xlarge"), 0.624),
  (("i3.4xlarge"), 1.248),
  (("i3.8xlarge"), 2.496),
  (("i3.16xlarge"), 4.992),
  (("t4g.nano"), 0.0042),
  (("t4g.micro"), 0.0084),
  (("t4g.small"), 0.0168),
  (("t4g.medium"), 0.0336),
  (("t4g.large"), 0.0672),
  (("t4g.xlarge"), 0.1344),
  (("t4g.2xlarge"), 0.2688),
  (("m6g.large"), 0.077),
  (("m6g.xlarge"), 0.154),
  (("m6g.2xlarge"), 0.308),
  (("m6g.4xlarge"), 0.616),
  (("m7g.large"), 0.0816),
  (("m7g.xlarge"), 0.1632),
  (("m7g.2xlarge"), 0.3264),
  (("c6g.large"), 0.068),
  (("c6g.xlarge"), 0.136),
  (("c6g.2xlarge"), 0.272),
  (("c7g.large"), 0.0725),
  (("c7g.xlarge"), 0.145),
  (("c7g.2xlarge"), 0.29),
  (("r6g.large"), 0.1008),
  (("r6g.xlarge"), 0.2016),
  (("r6g.2xlarge"), 0.4032),
  (("r7g.large"), 0.1071),
  (("r7g.xlarge"), 0.2142),
  (("r7g.2xlarge"), 0.4284)]

/-- Source `HOURS_PER_MONTH = 730`. -/
def HOURS_PER_MONTH : ℚ := 730

/-- Source `get_ec2_price_per_hour(instance_type, region, operating_system, use_api)`:
tries the Price List API, then the default table, then the documented
`t3.medium` fallback key. -/
def get_ec2_price_per_hour (apiPrice : String → String → String → Option ℚ)
    (instanceType region operatingSystem : String) (useApi : Bool) : ℚ :=
  match (if useApi then apiPrice instanceType region operatingSystem else none) with
  | some p => p
  | none =>
    match DEFAULT_EC2_PRICES.lookup instanceType with
    | some p => p
    | none => (DEFAULT_EC2_PRICES.lookup ("t3.medium")).getD 0.0416

/-- Source `calculate_ec2_monthly_cost`: hourly price times 730, rounded. -/
def calculate_ec2_monthly_cost (apiPrice : String → String → String → Option ℚ)
    (instanceType region operatingSystem : String) (useApi : Bool) : ℚ :=
  roundTo2 (get_ec2_price_per_hour apiPrice instanceType region operatingSystem useApi
    * HOURS_PER_MONTH)

end AwsEc2Pricing

/-! ## `src/utils/aws_rds_pricing.py` -/

namespace AwsRdsPricing

/-- Source `DEFAULT_RDS_POSTGRES_PRICES`: fallback Single-AZ price per hour. -/
def DEFAULT_RDS_POSTGRES_PRICES : List (String × ℚ) :=
  [
  (("db.t4g.micro"), 0.016),
  (("db.t4g.small"), 0.032),
  (("db.t4g.medium"), 0.065),
  (("db.t4g.large"), 0.129),
  (("db.t4g.xlarge"), 0.258),
  (("db.t4g.2xlarge"), 0.516),
  (("db.t3.micro"), 0.017),
  (("db.t3.small"), 0.034),
  (("db.t3.medium"), 0.068),
  (("db.t3.large"), 0.136),
  (("db.t3.xlarge"), 0.272),
  (("db.t3.2xlarge"), 0.544),
  (("db.m6g.large"), 0.154),
  (("db.m6g.xlarge"), 0.308),
  (("db.m6g.2xlarge"), 0.616),
  (("db.m6g.4xlarge"), 1.232),
  (("db.m6g.8xlarge"), 2.464),
  (("db.m6g.12xlarge"), 3.696),
  (("db.m6g.16xlarge"), 4.928),
  (("db.m6i.large"), 0.171),
  (("db.m6i.xlarge"), 0.342),
  (("db.m6i.2xlarge"), 0.684),
  (("db.m6i.4xlarge"), 1.368),
  (("db.m6i.8xlarge"), 2.736),
  (("db.m6i.12xlarge"), 4.104),
  (("db.m6i.16xlarge"), 5.472),
  (("db.m6i.24xlarge"), 8.208),
  (("db.m7g.large"), 0.168),
  (("db.m7g.xlarge"), 0.336),
  (("db.m7g.2xlarge"), 0.672),
  (("db.m7g.4xlarge"), 1.344),
  (("db.m7g.8xlarge"), 2.688),
  (("db.m7g.12xlarge"), 4.032),
  (("db.m7g.16xlarge"), 5.376),
  (("db.m5.large"), 0.171),
  (("db.m5.xlarge"), 0.342),
  (("db.m5.2xlarge"), 0.684),
  (("db.m5.4xlarge"), 1.368),
  (("db.m5.8xlarge"), 2.736),
  (("db.m5.12xlarge"), 4.104),
  (("db.m5.16xlarge"), 5.472),
  (("db.m5.24xlarge"), 8.208),
  (("db.r6g.large"), 0.216),
  (("db.r6g.xlarge"), 0.432),
  (("db.r6g.2xlarge"), 0.864),
  (("db.r6g.4xlarge"), 1.728),
  (("db.r6g.8xlarge"), 3.456),
  (("db.r6g.12xlarge"), 5.184),
  (("db.r6g.16xlarge"), 6.912),
  (("db.r6i.large"), 0.24),
  (("db.r6i.xlarge"), 0.48),
  (("db.r6i.2xlarge"), 0.96),
  (("db.r6i.4xlarge"), 1.92),
  (("db.r6i.8xlarge"), 3.84),
  (("db.r6i.12xlarge"), 5.76),
  (("db.r6i.16xlarge"), 7.68),
  (("db.r6i.24xlarge"), 11.52),
  (("db.r7g.large"), 0.2352),
  (("db.r7g.xlarge"), 0.4704),
  (("db.r7g.2xlarge"), 0.9408),
  (("db.r7g.4xlarge"), 1.8816),
  (("db.r7g.8xlarge"), 3.7632),
  (("db.r7g.12xlarge"), 5.6448),
  (("db.r7g.16xlarge"), 7.5264),
  (("db.r5.large"), 0.24),
  (("db.r5.xlarge"), 0.48),
  (("db.r5.2xlarge"), 0.96),
  (("db.r5.4xlarge"), 1.92),
  (("db.r5.8xlarge"), 3.84),
  (("db.r5.12xlarge"), 5.76),
  (("db.r5.16xlarge"), 7.68),
  (("db.r5.24xlarge"), 11.52)]

/-- Source `DEFAULT_RDS_STORAGE_PRICES`: storage price per GB-month. -/
def DEFAULT_RDS_STORAGE_PRICES : List (String × ℚ) :=
  [
  (("gp2"), 0.115),
  (("gp3"), 0.08),
  (("io1"), 0.125),
  (("io2"), 0.125),
  (("standard"), 0.10)]

/-- Source `DEFAULT_SNAPSHOT_PRICE_PER_GB = 0.095`. -/
def DEFAULT_SNAPSHOT_PRICE_PER_GB : ℚ := 0.095

/-- Source `HOURS_PER_MONTH = 730`. -/
def HOURS_PER_MONTH : ℚ := 730

/-- Source `get_rds_price_per_hour(db_instance_class, region, multi_az, use_api)`:
tries the Price List API (keyed also by deployment option), then the default
table (doubled for Multi-AZ), then the documented `db.t4g.medium` fallback
key (also doubled for Multi-AZ). -/
def get_rds_price_per_hour (apiPrice : String → String → String → Option ℚ)
    (dbInstanceClass region : String) (multiAz useApi : Bool) : ℚ :=
  let deploymentOption := if multiAz then "Multi-AZ" else "Single-AZ"
  match (if useApi then apiPrice dbInstanceClass region deploymentOption else none) with
  | some p => p
  | none =>
    match DEFAULT_RDS_POSTGRES_PRICES.lookup dbInstanceClass with
    | some p => if multiAz then p * 2 else p
    | none =>
      let fallbackPrice := (DEFAULT_RDS_POSTGRES_PRICES.lookup ("db.t4g.medium")).getD 0.065
      if multiAz then fallbackPrice * 2 else fallbackPrice

/-- Source `get_rds_storage_price_per_gb(storage_type)`: default-table lookup on the
lower-cased type, defaulting to 0.115. -/
def get_rds_storage_price_per_gb (storageType : String) : ℚ :=
  (DEFAULT_RDS_STORAGE_PRICES.lookup storageType.toLower).getD 0.115

/-- Source `calculate_rds_monthly_cost`: compute cost (hourly times 730) plus
storage cost (doubled for Multi-AZ), rounded. -/
def calculate_rds_monthly_cost (apiPrice : String → String → String → Option ℚ)
    (dbInstanceClass region : String) (multiAz : Bool)
    (allocatedStorageGb : ℕ) (storageType : String) (useApi : Bool) : ℚ :=
  let hourlyPrice := get_rds_price_per_hour apiPrice dbInstanceClass region multiAz useApi
  let computeCost := hourlyPrice * HOURS_PER_MONTH
  let storageCostBase := get_rds_storage_price_per_gb storageType * (allocatedStorageGb : ℚ)
  let storageCost := if multiAz then storageCostBase * 2 else storageCostBase
  roundTo2 (computeCost + storageCost)

/-- Source `calculate_snapshot_monthly_cost(snapshot_size_gb)`. -/
def calculate_snapshot_monthly_cost (snapshotSizeGb : ℕ) : ℚ :=
  roundTo2 (DEFAULT_SNAPSHOT_PRICE_PER_GB * (snapshotSizeGb : ℚ))

end AwsRdsPricing

/-! ## `src/utils/aws_s3_pricing.py` -/

namespace AwsS3Pricing

/-- Source `DEFAULT_S3_STORAGE_PRICES`: storage price per GB-month by class. -/
def DEFAULT_S3_STORAGE_PRICES : List (String × ℚ) :=
  [
  (("STANDARD"), 0.023),
  (("INTELLIGENT_TIERING"), 0.023),
  (("STANDARD_IA"), 0.0125),
  (("ONEZONE_IA"), 0.01),
  (("GLACIER_IR"), 0.004),
  (("GLACIER"), 0.0036),
  (("DEEP_ARCHIVE"), 0.00099),
  (("REDUCED_REDUNDANCY"), 0.024)]

/-- Source `get_storage_price_per_gb(storage_class, region)`: normalises the class
name (upper-case, dashes to underscores) and looks it up, defaulting to the
STANDARD rate. -/
def get_storage_price_per_gb (storageClass : String) (_region : String) : ℚ :=
  let normalized := (storageClass.toUpper).replace ("-") ("_")
  (DEFAULT_S3_STORAGE_PRICES.lookup normalized).getD 0.023

/-- Source `calculate_storage_monthly_cost(size_bytes, storage_class, region)`. -/
def calculate_storage_monthly_cost (sizeBytes : ℕ)
    (storageClass region : String) : ℚ :=
  roundTo2 (((sizeBytes : ℚ) / (1024 ^ 3)) * get_storage_price_per_gb storageClass region)

/-- Source `calculate_bucket_monthly_cost(size_bytes, object_count, storage_class,
region)`: storage cost only (the object count is informational). -/
def calculate_bucket_monthly_cost (sizeBytes : ℕ) (_objectCount : ℕ)
    (storageClass region : String) : ℚ :=
  calculate_storage_monthly_cost sizeBytes storageClass region

end AwsS3Pricing

/-! ## `src/scanners/ebs_scanner.py` -/

namespace EbsScanner

/-- An EBS volume as the scanner sees it: the `describe_volumes` fields it
reads plus the CloudWatch `Sum` datapoints for `VolumeReadOps` and
`VolumeWriteOps` over the lookback window. -/
structure EBSVolume where
  volumeId : String
  volumeType : String
  size : ℕ
  iops : Option ℕ
  throughput : Option ℕ
  readOpsSums : List ℚ
  writeOpsSums : List ℚ
deriving DecidableEq

/-- Scanner configuration from `EBSScanner.__init__`. -/
structure EBSConfig where
  region : String
  days : ℕ
  ioThreshold : ℚ
deriving DecidableEq

/-- Source `total_io = total_read_io + total_write_io` for one volume
(`ebs_scanner.py` lines 108-110): the sums of the returned datapoints.  An
empty series contributes 0. -/
def volumeTotalOps (v : EBSVolume) : ℚ := v.readOpsSums.sum + v.writeOpsSums.sum

/-- Source `get_low_io_volumes`: keeps the volumes with `total_io < io_threshold`
(`ebs_scanner.py` line 112). -/
def get_low_io_volumes (cfg : EBSConfig) (volumes : List EBSVolume) : List EBSVolume :=
  volumes.filter (fun v => decide (volumeTotalOps v < cfg.ioThreshold))

/-- Source `EBSScanner.calculate_monthly_cost`: delegates to
`calculate_ebs_monthly_cost` with the volume's type, size, IOPS and
throughput. -/
def calculate_monthly_cost (apiPrice : String → String → Option ℚ)
    (cfg : EBSConfig) (v : EBSVolume) (useApi : Bool) : ℚ :=
  AwsEbsPricing.calculate_ebs_monthly_cost apiPrice v.volumeType v.size cfg.region
    v.iops v.throughput useApi

/-- The dictionary returned by `analyze_ebs_volumes`. -/
structure EBSAnalysisResult where
  unattachedVolumesCount : ℕ
  unattachedVolumesMonthlyCost : ℚ
  lowIoVolumesCount : ℕ
  lowIoVolumesMonthlyCost : ℚ
  totalPotentialMonthlySavings : ℚ
  unattachedVolumes : List EBSVolume
  lowIoVolumes : List EBSVolume
deriving DecidableEq

/-- Source `analyze_ebs_volumes`: `unattachedSrc` is what `get_unattached_volumes`
returned (the volumes whose status is `available`), `allSrc` what
`describe_volumes` without filter returned.  Total savings are the
unattached cost plus the cost of the low-I/O volumes whose id is not in the
unattached id set (`ebs_scanner.py` lines 160-189). -/
def analyze_ebs_volumes (apiPrice : String → String → Option ℚ) (cfg : EBSConfig)
    (unattachedSrc allSrc : List EBSVolume) (usePricingApi : Bool) : EBSAnalysisResult :=
  let unattached := unattachedSrc
  let lowIoVolumes := get_low_io_volumes cfg allSrc
  let cost := fun v => calculate_monthly_cost apiPrice cfg v usePricingApi
  let unattachedVolumesCost := (unattached.map cost).sum
  let lowIoVolumesCost := (lowIoVolumes.map cost).sum
  let unattachedIds := unattached.map (fun v => v.volumeId)
  let lowIoOnlyVolumes := lowIoVolumes.filter (fun v => decide (v.volumeId ∉ unattachedIds))
  let lowIoOnlyCost := (lowIoOnlyVolumes.map cost).sum
  let totalPotentialSavings := unattachedVolumesCost + lowIoOnlyCost
  { unattachedVolumesCount := unattached.length,
    unattachedVolumesMonthlyCost := roundTo2 unattachedVolumesCost,
    lowIoVolumesCount := lowIoVolumes.length,
    lowIoVolumesMonthlyCost := roundTo2 lowIoVolumesCost,
    totalPotentialMonthlySavings := roundTo2 totalPotentialSavings,
    unattachedVolumes := unattached,
    lowIoVolumes := lowIoVolumes }

/-- Keep the first occurrence of each `volumeId` (the specification-side
notion of "each distinct volume counted exactly once"). -/
def dedupByVolumeId : List EBSVolume → List EBSVolume
  | [] => []
  | v :: rest => v :: dedupByVolumeId (rest.filter (fun w => decide (w.volumeId ≠ v.volumeId)))
termination_by l => l.length
decreasing_by
  simp only [List.length_cons]
  exact Nat.lt_succ_of_le (List.length_filter_le _ _)

end EbsScanner

/-! ## `src/scanners/ec2_scanner.py` -/

namespace Ec2Scanner

/-- A running EC2 instance as the scanner sees it, with the CloudWatch
`Average` datapoints for `CPUUtilization` over the lookback window. -/
structure EC2Instance where
  instanceId : String
  instanceType : String
  instanceName : String
  cpuDatapoints : List ℚ
deriving DecidableEq

/-- Scanner configuration from `EC2Scanner.__init__`. -/
structure EC2Config where
  region : String
  days : ℕ
  idleThreshold : ℚ
deriving DecidableEq

/-- Source `calculate_average_cpu`: arithmetic mean, or `None` for no data. -/
def calculate_average_cpu (datapoints : List ℚ) : Option ℚ :=
  if datapoints = [] then none
  else some (datapoints.sum / (datapoints.length : ℚ))

/-- An idle-instance finding as assembled in `analyze_ec2_instances`. -/
structure EC2IdleFinding where
  instanceId : String
  instanceName : String
  instanceType : String
  avgCpuPercent : ℚ
  estimatedMonthlyCost : ℚ
deriving DecidableEq

/-- The finding dictionary built for one idle instance. -/
def mkIdleFinding (apiPrice : String → String → String → Option ℚ)
    (cfg : EC2Config) (usePricingApi : Bool) (i : EC2Instance) (avgCpu : ℚ) :
    EC2IdleFinding :=
  { instanceId := i.instanceId,
    instanceName := i.instanceName,
    instanceType := i.instanceType,
    avgCpuPercent := roundTo2 avgCpu,
    estimatedMonthlyCost :=
      AwsEc2Pricing.calculate_ec2_monthly_cost apiPrice i.instanceType cfg.region
        ("Linux") usePricingApi }

/-- Source `analyze_ec2_instances`: for each running instance, reduce its CPU
series; `None` (no data) instances are logged and skipped, otherwise the
instance is a finding iff `avg_cpu <= idle_threshold`
(`ec2_scanner.py` lines 160-200). -/
def analyze_ec2_instances (apiPrice : String → String → String → Option ℚ)
    (cfg : EC2Config) (instances : List EC2Instance) (usePricingApi : Bool) :
    List EC2IdleFinding :=
  instances.filterMap (fun i =>
    match calculate_average_cpu i.cpuDatapoints with
    | some avgCpu =>
      if avgCpu ≤ cfg.idleThreshold then
        some (mkIdleFinding apiPrice cfg usePricingApi i avgCpu)
      else none
    | none => none)

/-- The cost aggregation of `EC2Scanner.get_scan_summary`:
`idle_instances_monthly_cost = round(sum of finding costs, 2)`. -/
def scanSummaryIdleCost (findings : List EC2IdleFinding) : ℚ :=
  roundTo2 ((findings.map (fun f => f.estimatedMonthlyCost)).sum)

end Ec2Scanner

/-! ## `src/scanners/rds_scanner.py` -/

namespace RdsScanner

/-- Scanner configuration from `RDSScanner.__init__`. -/
structure RDSConfig where
  region : String
  days : ℕ
  cpuThreshold : ℚ
  connectionsThreshold : ℚ
  snapshotAgeDays : ℕ
deriving DecidableEq

/-- An RDS instance as built by `get_rds_instances`, with the CloudWatch
`Average` datapoints for `CPUUtilization` and `DatabaseConnections`. -/
structure RDSInstance where
  dbInstanceId : String
  dbInstanceClass : String
  engine : String
  status : String
  allocatedStorageGb : ℕ
  multiAz : Bool
  storageType : String
  cpuDatapoints : List ℚ
  connectionsDatapoints : List ℚ
deriving DecidableEq

/-- Source `calculate_average`: arithmetic mean of the datapoints, or `None` for an
empty series (`rds_scanner.py` lines 133-146). -/
def calculate_average (datapoints : List ℚ) : Option ℚ :=
  if datapoints = [] then none
  else some (datapoints.sum / (datapoints.length : ℚ))

/-- Source `is_instance_idle(avg_cpu, avg_connections)`: `False` when either value
is `None`, else the conjunction of the two threshold comparisons
(`rds_scanner.py` lines 148-162). -/
def is_instance_idle (cfg : RDSConfig) (avgCpu avgConnections : Option ℚ) : Bool :=
  match avgCpu, avgConnections with
  | some c, some n =>
    decide (c ≤ cfg.cpuThreshold) && decide (n ≤ cfg.connectionsThreshold)
  | _, _ => false

/-- An idle-instance finding as assembled in `analyze_rds_instances`. -/
structure RDSIdleFinding where
  dbInstanceId : String
  dbInstanceClass : String
  avgCpuPercent : ℚ
  avgConnections : ℚ
  estimatedMonthlyCost : ℚ
deriving DecidableEq

/-- The finding dictionary built for one idle RDS instance. -/
def mkRdsIdleFinding (apiPrice : String → String → String → Option ℚ)
    (cfg : RDSConfig) (usePricingApi : Bool) (i : RDSInstance)
    (avgCpu avgConnections : ℚ) : RDSIdleFinding :=
  { dbInstanceId := i.dbInstanceId,
    dbInstanceClass := i.dbInstanceClass,
    avgCpuPercent := roundTo2 avgCpu,
    avgConnections := roundTo2 avgConnections,
    estimatedMonthlyCost :=
      AwsRdsPricing.calculate_rds_monthly_cost apiPrice i.dbInstanceClass cfg.region
        i.multiAz i.allocatedStorageGb i.storageType usePricingApi }

/-- Source `analyze_rds_instances`: restricts to instances whose status is
`available`, reduces both metric series, and keeps the instances
`is_instance_idle` accepts (`rds_scanner.py` lines 244-318). -/
def analyze_rds_instances (apiPrice : String → String → String → Option ℚ)
    (cfg : RDSConfig) (instances : List RDSInstance) (usePricingApi : Bool) :
    List RDSIdleFinding :=
  let availableInstances := instances.filter (fun i => decide (i.status = "available"))
  availableInstances.filterMap (fun i =>
    let avgCpu := calculate_average i.cpuDatapoints
    let avgConnections := calculate_average i.connectionsDatapoints
    if is_instance_idle cfg avgCpu avgConnections then
      some (mkRdsIdleFinding apiPrice cfg usePricingApi i (avgCpu.getD 0)
        (avgConnections.getD 0))
    else none)

/-- A manual RDS snapshot as built by `get_manual_snapshots`
(`snapshot_create_time` in epoch seconds, `None` when absent). -/
structure RDSSnapshot where
  snapshotId : String
  dbInstanceId : String
  snapshotCreateTime : Option ℤ
  allocatedStorageGb : ℕ
deriving DecidableEq

/-- Source `find_old_snapshots`: keeps the snapshots whose creation time exists and
is strictly before `now - snapshot_age_days` (`rds_scanner.py` lines
223-227); the annotation fields added to each kept snapshot (age, cost,
recommendation) do not affect which snapshots are kept. -/
def find_old_snapshots (cfg : RDSConfig) (now : ℤ) (snapshots : List RDSSnapshot) :
    List RDSSnapshot :=
  let cutoffDate := now - (cfg.snapshotAgeDays : ℤ) * 86400
  snapshots.filter (fun s =>
    match s.snapshotCreateTime with
    | some t => decide (t < cutoffDate)
    | none => false)

end RdsScanner

/-! ## `src/scanners/s3_scanner.py` -/

namespace S3Scanner

/-- Scanner configuration from `S3Scanner.__init__`. -/
structure S3Config where
  region : String
  days : ℕ
  requestThreshold : ℕ
deriving DecidableEq

/-- An S3 bucket after region resolution and metric fetches: `region` is the
`_get_bucket_region` result (`"unknown"` on failure), `hasMetrics` and
`totalRequests` the `get_bucket_request_metrics` result, `sizeBytes` and
`objectCount` the storage metrics. -/
structure S3Bucket where
  bucketName : String
  region : String
  hasMetrics : Bool
  totalRequests : ℕ
  sizeBytes : ℕ
  objectCount : ℕ
deriving DecidableEq

/-- Source `is_bucket_unused(total_requests)`: `total_requests <= request_threshold`
(`s3_scanner.py` line 215). -/
def is_bucket_unused (cfg : S3Config) (totalRequests : ℕ) : Bool :=
  decide (totalRequests ≤ cfg.requestThreshold)

/-- The estimated monthly cost computed for each analyzed bucket
(`calculate_bucket_monthly_cost` with default storage class and region). -/
def bucketCost (b : S3Bucket) : ℚ :=
  AwsS3Pricing.calculate_bucket_monthly_cost b.sizeBytes b.objectCount
    ("STANDARD") ("us-east-1")

/-- The two finding lists `analyze_s3_buckets` accumulates. -/
structure S3AnalysisResult where
  unusedBuckets : List S3Bucket
  bucketsWithoutMetrics : List S3Bucket
deriving DecidableEq

/-- Source `analyze_s3_buckets` (`s3_scanner.py` lines 235-289): buckets with
unknown region are skipped; buckets without request metrics go to
`buckets_without_metrics`; buckets `is_bucket_unused` accepts go to
`unused_buckets`; active buckets go nowhere. -/
def analyze_s3_buckets (cfg : S3Config) : List S3Bucket → S3AnalysisResult
  | [] => { unusedBuckets := [], bucketsWithoutMetrics := [] }
  | b :: rest =>
    let r := analyze_s3_buckets cfg rest
    if b.region = "unknown" then r
    else if b.hasMetrics = false then
      { unusedBuckets := r.unusedBuckets,
        bucketsWithoutMetrics := b :: r.bucketsWithoutMetrics }
    else if is_bucket_unused cfg b.totalRequests then
      { unusedBuckets := b :: r.unusedBuckets,
        bucketsWithoutMetrics := r.bucketsWithoutMetrics }
    else r

/-- The cost aggregation of `S3Scanner.get_scan_summary`:
`unused_buckets_monthly_cost = round(sum of unused bucket costs, 2)`;
buckets without metrics are not summed. -/
def scanSummaryUnusedCost (r : S3AnalysisResult) : ℚ :=
  roundTo2 ((r.unusedBuckets.map bucketCost).sum)

end S3Scanner

/-! ## Claim theorems -/

/-- C1, counterexample: the claim "low-I/O iff total I/O `<=` io_threshold
(inclusive boundary)" is false on the code.  A volume whose read plus write
operations total exactly 100 against `io_threshold = 100` satisfies the
claimed inclusive comparison but is NOT classified low-I/O by
`get_low_io_volumes`. -/
theorem ebs_low_io_inclusive_boundary_fails :
    ¬ ((EbsScanner.EBSVolume.mk ("vol-1") ("gp2") 100 none none [60] [40]) ∈
        EbsScanner.get_low_io_volumes (EbsScanner.EBSConfig.mk ("us-east-1") 14 100)
          [EbsScanner.EBSVolume.mk ("vol-1") ("gp2") 100 none none [60] [40]] ↔
      ([(60 : ℚ)].sum + [(40 : ℚ)].sum ≤ 100)) := by
  have hmem : ¬ (EbsScanner.EBSVolume.mk ("vol-1") ("gp2") 100 none none [60] [40]) ∈
      EbsScanner.get_low_io_volumes (EbsScanner.EBSConfig.mk ("us-east-1") 14 100)
        [EbsScanner.EBSVolume.mk ("vol-1") ("gp2") 100 none none [60] [40]] := by
    simp [EbsScanner.get_low_io_volumes, EbsScanner.volumeTotalOps]
    norm_num
  intro h
  exact hmem (h.mpr (by norm_num))

/-- C1 (amended): `get_low_io_volumes` classifies a volume as low-I/O iff
the sum of its read operations plus the sum of its write operations over
the lookback window is STRICTLY LESS than `io_threshold`; a volume whose
total I/O exactly equals the threshold is NOT classified low-I/O
(exclusive boundary). -/
theorem ebs_low_io_strict_boundary (cfg : EbsScanner.EBSConfig)
    (volumes : List EbsScanner.EBSVolume) (v : EbsScanner.EBSVolume) :
    v ∈ EbsScanner.get_low_io_volumes cfg volumes ↔
      v ∈ volumes ∧ v.readOpsSums.sum + v.writeOpsSums.sum < cfg.ioThreshold := by
  simp [EbsScanner.get_low_io_volumes, EbsScanner.volumeTotalOps, List.mem_filter]

/-- C7: `is_instance_idle` returns true iff both the average CPU is at most
`cpu_threshold` and the average connection count is at most
`connections_threshold`; if either metric is `None` the instance is not
idle; and `calculate_average` reduces a series to `None` exactly when the
series is empty. -/
theorem rds_idle_conjunctive_rule (cfg : RdsScanner.RDSConfig) :
    (∀ c n : ℚ,
      RdsScanner.is_instance_idle cfg (some c) (some n) = true ↔
        c ≤ cfg.cpuThreshold ∧ n ≤ cfg.connectionsThreshold)
    ∧ (∀ o : Option ℚ,
      RdsScanner.is_instance_idle cfg none o = false
        ∧ RdsScanner.is_instance_idle cfg o none = false)
    ∧ (∀ datapoints : List ℚ,
      RdsScanner.calculate_average datapoints = none ↔ datapoints = []) := by
  refine ⟨fun c n => ?_, fun o => ⟨rfl, ?_⟩, fun datapoints => ?_⟩
  · simp [RdsScanner.is_instance_idle]
  · cases o <;> rfl
  · by_cases h : datapoints = [] <;> simp [RdsScanner.calculate_average, h]

/-- C3: `find_old_snapshots` flags a manual snapshot whose age is exactly
`d` whole days iff `d` is strictly greater than `snapshot_age_days`: a
snapshot of age exactly `snapshot_age_days` is NOT flagged, one of age
`snapshot_age_days + 1` is. -/
theorem rds_snapshot_age_strict (cfg : RdsScanner.RDSConfig) (now : ℤ)
    (snapshots : List RdsScanner.RDSSnapshot) (s : RdsScanner.RDSSnapshot)
    (t d : ℤ) (hmem : s ∈ snapshots) (ht : s.snapshotCreateTime = some t)
    (hd : now - t = d * 86400) :
    s ∈ RdsScanner.find_old_snapshots cfg now snapshots ↔
      (cfg.snapshotAgeDays : ℤ) < d := by
  unfold RdsScanner.find_old_snapshots
  rw [List.mem_filter]
  simp only [ht, hmem, true_and, decide_eq_true_eq]
  omega

/-- Witness for C3 at a concrete input: a snapshot created at epoch 0,
scanned 91 days later with `snapshot_age_days = 90`, is flagged. -/
theorem rds_snapshot_age_strict_witness :
    ((RdsScanner.RDSSnapshot.mk ("snap-1") ("db-1") (some 0) 20) ∈
        [RdsScanner.RDSSnapshot.mk ("snap-1") ("db-1") (some 0) 20])
    ∧ (RdsScanner.RDSSnapshot.mk ("snap-1") ("db-1") (some 0) 20).snapshotCreateTime = some 0
    ∧ ((91 * 86400 : ℤ) - 0 = 91 * 86400)
    ∧ ((RdsScanner.RDSSnapshot.mk ("snap-1") ("db-1") (some 0) 20) ∈
        RdsScanner.find_old_snapshots
          (RdsScanner.RDSConfig.mk ("us-east-1") 14 5 1 90) (91 * 86400)
          [RdsScanner.RDSSnapshot.mk ("snap-1") ("db-1") (some 0) 20] ↔
      ((RdsScanner.RDSConfig.mk ("us-east-1") 14 5 1 90).snapshotAgeDays : ℤ) < 91) :=
  ⟨by decide, rfl, by decide,
    rds_snapshot_age_strict _ _ _ _ 0 91 (by decide) rfl (by decide)⟩

/-- C9: `analyze_rds_instances` only classifies instances whose status is
exactly `available`: the analysis result is unchanged when the input is
restricted to the available instances, and a list containing only
non-available instances produces no findings at all (hence nothing in the
idle cost total), regardless of metric values. -/
theorem rds_only_available_analyzed
    (apiPrice : String → String → String → Option ℚ) (cfg : RdsScanner.RDSConfig)
    (instances : List RdsScanner.RDSInstance) (usePricingApi : Bool) :
    (RdsScanner.analyze_rds_instances apiPrice cfg instances usePricingApi
      = RdsScanner.analyze_rds_instances apiPrice cfg
          (instances.filter (fun i => decide (i.status = "available"))) usePricingApi)
    ∧ (RdsScanner.analyze_rds_instances apiPrice cfg
          (instances.filter (fun i => decide (¬ i.status = "available"))) usePricingApi
        = []) := by
  constructor
  · unfold RdsScanner.analyze_rds_instances
    rw [List.filter_filter]
    simp
  · unfold RdsScanner.analyze_rds_instances
    rw [List.filter_filter]
    have heq : (fun (i : RdsScanner.RDSInstance) =>
        decide (i.status = "available") && decide (¬ i.status = "available")) =
        fun _ => false := by
      funext i
      by_cases h : i.status = "available" <;> simp [h]
    rw [heq]
    simp

/-- Helper: the two finding lists of `analyze_s3_buckets` are exactly the
filters of the input by the three-way decision rule. -/
lemma s3_analysis_eq_filters (cfg : S3Scanner.S3Config) (buckets : List S3Scanner.S3Bucket) :
    (S3Scanner.analyze_s3_buckets cfg buckets).unusedBuckets
      = buckets.filter (fun b => decide (¬ b.region = "unknown"
          ∧ b.hasMetrics = true ∧ b.totalRequests ≤ cfg.requestThreshold))
    ∧ (S3Scanner.analyze_s3_buckets cfg buckets).bucketsWithoutMetrics
      = buckets.filter (fun b => decide (¬ b.region = "unknown" ∧ b.hasMetrics = false)) := by
  induction buckets with
  | nil => exact ⟨rfl, rfl⟩
  | cons b rest ih =>
    obtain ⟨ih1, ih2⟩ := ih
    by_cases h1 : b.region = "unknown"
    · simp [S3Scanner.analyze_s3_buckets, h1, ih1, ih2]
    · by_cases h2 : b.hasMetrics
      · by_cases h3 : b.totalRequests ≤ cfg.requestThreshold
        · simp [S3Scanner.analyze_s3_buckets, S3Scanner.is_bucket_unused, h1, h2, h3, ih1, ih2]
        · simp [S3Scanner.analyze_s3_buckets, S3Scanner.is_bucket_unused, h1, h2, h3, ih1, ih2]
      · simp [S3Scanner.analyze_s3_buckets, h1, h2, ih1, ih2]

/-- C4: the S3 classification is three-way.  A bucket (with a resolvable
region) without request metrics lands in `buckets_without_metrics`
regardless of its request count; with metrics and at most
`request_threshold` requests it lands in `unused_buckets`; otherwise it is
active and lands in neither list.  The scan summary's unused-bucket cost
total sums exactly the unused list, so metrics-not-enabled buckets are
excluded from it. -/
theorem s3_three_way_classification (cfg : S3Scanner.S3Config)
    (buckets : List S3Scanner.S3Bucket) :
    ((S3Scanner.analyze_s3_buckets cfg buckets).unusedBuckets
      = buckets.filter (fun b => decide (¬ b.region = "unknown"
          ∧ b.hasMetrics = true ∧ b.totalRequests ≤ cfg.requestThreshold)))
    ∧ ((S3Scanner.analyze_s3_buckets cfg buckets).bucketsWithoutMetrics
      = buckets.filter (fun b => decide (¬ b.region = "unknown" ∧ b.hasMetrics = false)))
    ∧ (S3Scanner.scanSummaryUnusedCost (S3Scanner.analyze_s3_buckets cfg buckets)
      = roundTo2 (((buckets.filter (fun b => decide (¬ b.region = "unknown"
          ∧ b.hasMetrics = true ∧ b.totalRequests ≤ cfg.requestThreshold))).map
            S3Scanner.bucketCost).sum)) := by
  obtain ⟨h1, h2⟩ := s3_analysis_eq_filters cfg buckets
  exact ⟨h1, h2, by rw [S3Scanner.scanSummaryUnusedCost, h1]⟩

/-- C10: buckets whose region resolves to `unknown` are skipped entirely by
`analyze_s3_buckets`: the analysis of any bucket list equals the analysis
of that list with unknown-region buckets removed, and a list of only
unknown-region buckets yields empty finding lists (hence no contribution to
any cost total). -/
theorem s3_unknown_region_skipped (cfg : S3Scanner.S3Config)
    (buckets : List S3Scanner.S3Bucket) :
    (S3Scanner.analyze_s3_buckets cfg buckets
      = S3Scanner.analyze_s3_buckets cfg
          (buckets.filter (fun b => decide (¬ b.region = "unknown"))))
    ∧ (S3Scanner.analyze_s3_buckets cfg
          (buckets.filter (fun b => decide (b.region = "unknown")))
        = { unusedBuckets := [], bucketsWithoutMetrics := [] }) := by
  constructor
  · induction buckets with
    | nil => rfl
    | cons b rest ih =>
      by_cases h1 : b.region = "unknown"
      · simpa [S3Scanner.analyze_s3_buckets, h1] using ih
      · by_cases h2 : b.hasMetrics
        · by_cases h3 : S3Scanner.is_bucket_unused cfg b.totalRequests
          · simp [S3Scanner.analyze_s3_buckets, h1, h2, h3, ih]
          · simpa [S3Scanner.analyze_s3_buckets, h1, h2, h3] using ih
        · simp [S3Scanner.analyze_s3_buckets, h1, h2, ih]
  · induction buckets with
    | nil => rfl
    | cons b rest ih =>
      by_cases h1 : b.region = "unknown" <;>
        simpa [S3Scanner.analyze_s3_buckets, h1] using ih

/-- Helper: `analyze_ec2_instances` is the map of the finding constructor
over the instances whose CPU series is non-empty with mean at most the idle
threshold. -/
lemma ec2_analysis_eq_filter_map (apiPrice : String → String → String → Option ℚ)
    (cfg : Ec2Scanner.EC2Config) (instances : List Ec2Scanner.EC2Instance)
    (usePricingApi : Bool) :
    Ec2Scanner.analyze_ec2_instances apiPrice cfg instances usePricingApi
      = (instances.filter (fun i => decide (¬ i.cpuDatapoints = []
            ∧ i.cpuDatapoints.sum / (i.cpuDatapoints.length : ℚ) ≤ cfg.idleThreshold))).map
          (fun i => Ec2Scanner.mkIdleFinding apiPrice cfg usePricingApi i
            (i.cpuDatapoints.sum / (i.cpuDatapoints.length : ℚ))) := by
  induction instances with
  | nil => rfl
  | cons i rest ih =>
    by_cases h1 : i.cpuDatapoints = []
    · simpa [Ec2Scanner.analyze_ec2_instances, Ec2Scanner.calculate_average_cpu, h1]
        using ih
    · by_cases h2 : i.cpuDatapoints.sum / (i.cpuDatapoints.length : ℚ) ≤ cfg.idleThreshold
      · simpa [Ec2Scanner.analyze_ec2_instances, Ec2Scanner.calculate_average_cpu, h1, h2]
          using ih
      · simpa [Ec2Scanner.analyze_ec2_instances, Ec2Scanner.calculate_average_cpu, h1, h2]
          using ih

/-- C6: a running EC2 instance is reported as an idle finding iff its CPU
series is non-empty and its arithmetic mean is at most the idle threshold
(inclusive boundary); an instance with an empty CPU series produces no
finding, and the scan summary's idle cost total sums only the findings of
instances satisfying that rule. -/
theorem ec2_idle_iff_avg_le_threshold (apiPrice : String → String → String → Option ℚ)
    (cfg : Ec2Scanner.EC2Config) (instances : List Ec2Scanner.EC2Instance)
    (usePricingApi : Bool) :
    (Ec2Scanner.analyze_ec2_instances apiPrice cfg instances usePricingApi
      = (instances.filter (fun i => decide (¬ i.cpuDatapoints = []
            ∧ i.cpuDatapoints.sum / (i.cpuDatapoints.length : ℚ) ≤ cfg.idleThreshold))).map
          (fun i => Ec2Scanner.mkIdleFinding apiPrice cfg usePricingApi i
            (i.cpuDatapoints.sum / (i.cpuDatapoints.length : ℚ))))
    ∧ (Ec2Scanner.scanSummaryIdleCost
          (Ec2Scanner.analyze_ec2_instances apiPrice cfg instances usePricingApi)
      = roundTo2 (((instances.filter (fun i => decide (¬ i.cpuDatapoints = []
            ∧ i.cpuDatapoints.sum / (i.cpuDatapoints.length : ℚ) ≤ cfg.idleThreshold))).map
          (fun i => (Ec2Scanner.mkIdleFinding apiPrice cfg usePricingApi i
            (i.cpuDatapoints.sum / (i.cpuDatapoints.length : ℚ))).estimatedMonthlyCost)).sum)) := by
  have h := ec2_analysis_eq_filter_map apiPrice cfg instances usePricingApi
  refine ⟨h, ?_⟩
  rw [Ec2Scanner.scanSummaryIdleCost, h, List.map_map]
  rfl

/-- Helper: casting a truncated natural subtraction to `ℚ` gives the
clamped difference `max 0 (a - b)`. -/
lemma cast_nat_sub_eq_max (a b : ℕ) : ((a - b : ℕ) : ℚ) = max 0 ((a : ℚ) - (b : ℚ)) := by
  rcases le_total a b with h | h
  · rw [Nat.sub_eq_zero_of_le h]
    have hle : (a : ℚ) - (b : ℚ) ≤ 0 := sub_nonpos.mpr (by exact_mod_cast h)
    rw [max_eq_left hle]
    exact Nat.cast_zero
  · rw [Nat.cast_sub h]
    have hle : (0 : ℚ) ≤ (a : ℚ) - (b : ℚ) := sub_nonneg.mpr (by exact_mod_cast h)
    rw [max_eq_right hle]

/-- C8: with the online lookup disabled (`use_api = False`) or failing
(the client returns no price), each pricing resolver returns the static
default-table price for the requested key, and for a key absent from the
table it returns the designated default key's price: `gp2` (0.10) for EBS
volume types, `t3.medium` (0.0416) for EC2 instance types, and
`db.t4g.medium` (0.065) for RDS instance classes — so a numeric price is
always returned and resolution never raises. -/
theorem pricing_default_table_fallback :
    (∀ (apiPrice : String → String → Option ℚ) (vt region : String),
      AwsEbsPricing.DEFAULT_EBS_PRICES.lookup vt
          = some (AwsEbsPricing.get_ebs_cost_per_gb apiPrice vt region false)
        ∨ (AwsEbsPricing.DEFAULT_EBS_PRICES.lookup vt = none
            ∧ AwsEbsPricing.get_ebs_cost_per_gb apiPrice vt region false = 0.10))
    ∧ (∀ (useApi : Bool) (vt region : String),
      AwsEbsPricing.DEFAULT_EBS_PRICES.lookup vt
          = some (AwsEbsPricing.get_ebs_cost_per_gb (fun _ _ => none) vt region useApi)
        ∨ (AwsEbsPricing.DEFAULT_EBS_PRICES.lookup vt = none
            ∧ AwsEbsPricing.get_ebs_cost_per_gb (fun _ _ => none) vt region useApi = 0.10))
    ∧ (∀ (apiPrice : String → String → String → Option ℚ) (it region os : String),
      AwsEc2Pricing.DEFAULT_EC2_PRICES.lookup it
          = some (AwsEc2Pricing.get_ec2_price_per_hour apiPrice it region os false)
        ∨ (AwsEc2Pricing.DEFAULT_EC2_PRICES.lookup it = none
            ∧ AwsEc2Pricing.get_ec2_price_per_hour apiPrice it region os false = 0.0416))
    ∧ (∀ (useApi : Bool) (it region os : String),
      AwsEc2Pricing.DEFAULT_EC2_PRICES.lookup it
          = some (AwsEc2Pricing.get_ec2_price_per_hour (fun _ _ _ => none) it region os useApi)
        ∨ (AwsEc2Pricing.DEFAULT_EC2_PRICES.lookup it = none
            ∧ AwsEc2Pricing.get_ec2_price_per_hour (fun _ _ _ => none) it region os useApi
              = 0.0416))
    ∧ (∀ (apiPrice : String → String → String → Option ℚ) (c region : String),
      AwsRdsPricing.DEFAULT_RDS_POSTGRES_PRICES.lookup c
          = some (AwsRdsPricing.get_rds_price_per_hour apiPrice c region false false)
        ∨ (AwsRdsPricing.DEFAULT_RDS_POSTGRES_PRICES.lookup c = none
            ∧ AwsRdsPricing.get_rds_price_per_hour apiPrice c region false false = 0.065))
    ∧ (∀ (useApi : Bool) (c region : String),
      AwsRdsPricing.DEFAULT_RDS_POSTGRES_PRICES.lookup c
          = some (AwsRdsPricing.get_rds_price_per_hour (fun _ _ _ => none) c region false useApi)
        ∨ (AwsRdsPricing.DEFAULT_RDS_POSTGRES_PRICES.lookup c = none
            ∧ AwsRdsPricing.get_rds_price_per_hour (fun _ _ _ => none) c region false useApi
              = 0.065)) := by
  refine ⟨fun apiPrice vt region => ?_, fun useApi vt region => ?_,
    fun apiPrice it region os => ?_, fun useApi it region os => ?_,
    fun apiPrice c region => ?_, fun useApi c region => ?_⟩
  · unfold AwsEbsPricing.get_ebs_cost_per_gb
    cases h : AwsEbsPricing.DEFAULT_EBS_PRICES.lookup vt <;> simp [h] <;> rfl
  · unfold AwsEbsPricing.get_ebs_cost_per_gb
    cases useApi <;> cases h : AwsEbsPricing.DEFAULT_EBS_PRICES.lookup vt <;>
      simp [h] <;> rfl
  · unfold AwsEc2Pricing.get_ec2_price_per_hour
    cases h : AwsEc2Pricing.DEFAULT_EC2_PRICES.lookup it <;> simp [h] <;> rfl
  · unfold AwsEc2Pricing.get_ec2_price_per_hour
    cases useApi <;> cases h : AwsEc2Pricing.DEFAULT_EC2_PRICES.lookup it <;>
      simp [h] <;> rfl
  · unfold AwsRdsPricing.get_rds_price_per_hour
    cases h : AwsRdsPricing.DEFAULT_RDS_POSTGRES_PRICES.lookup c <;> simp [h] <;> rfl
  · unfold AwsRdsPricing.get_rds_price_per_hour
    cases useApi <;> cases h : AwsRdsPricing.DEFAULT_RDS_POSTGRES_PRICES.lookup c <;>
      simp [h] <;> rfl

/-- C5: with the online lookup disabled and default prices, the gp3 monthly
cost is `size_GB * 0.08 + max(0, iops - 3000) * 0.005 +
max(0, throughput_MBps - 125) * 0.06`, rounded to 2 decimal places; in
particular 100 GB with 5000 provisioned IOPS costs exactly 18.00 and
100 GB with 500 MB/s provisioned throughput costs exactly 30.50. -/
theorem ebs_gp3_pricing_formula :
    (∀ (apiPrice : String → String → Option ℚ) (sizeGb : ℕ) (region : String)
        (iops throughputMbps : Option ℕ),
      AwsEbsPricing.calculate_ebs_monthly_cost apiPrice ("gp3") sizeGb region
          iops throughputMbps false
        = roundTo2 ((sizeGb : ℚ) * 0.08
            + max 0 ((iops.getD 0 : ℚ) - 3000) * 0.005
            + max 0 ((throughputMbps.getD 0 : ℚ) - 125) * 0.06))
    ∧ AwsEbsPricing.calculate_ebs_monthly_cost (fun _ _ => none) ("gp3") 100
        ("us-east-1") (some 5000) none false = 18
    ∧ AwsEbsPricing.calculate_ebs_monthly_cost (fun _ _ => none) ("gp3") 100
        ("us-east-1") none (some 500) false = 30.50 := by
  have hlk : (AwsEbsPricing.DEFAULT_IOPS_PRICES.lookup ("gp3")).getD (0.005 : ℚ)
      = 0.005 := rfl
  have hiops : ∀ iops : Option ℕ,
      (if ("gp3" = "io1" ∨ "gp3" = "io2") ∧ AwsEbsPricing.optTruthy iops = true then
        ((iops.getD 0 : ℕ) : ℚ) *
          ((AwsEbsPricing.DEFAULT_IOPS_PRICES.lookup ("gp3")).getD 0.065)
      else if ("gp3" : String) = "gp3" ∧ AwsEbsPricing.optTruthy iops = true
          ∧ 3000 < iops.getD 0 then
        ((iops.getD 0 - 3000 : ℕ) : ℚ) *
          ((AwsEbsPricing.DEFAULT_IOPS_PRICES.lookup ("gp3")).getD 0.005)
      else 0)
      = max 0 ((iops.getD 0 : ℚ) - 3000) * 0.005 := by
    intro iops
    rcases iops with _ | n
    · norm_num [AwsEbsPricing.optTruthy]
    · simp only [Option.getD_some]
      by_cases h : 3000 < n
      · have h0 : 0 < n := by omega
        rw [if_neg (by simp [AwsEbsPricing.optTruthy]), if_pos
          (by simp [AwsEbsPricing.optTruthy, h0, h]), hlk, cast_nat_sub_eq_max]
        norm_num
      · have hle : (n : ℚ) - 3000 ≤ 0 := by
          have hn : n ≤ 3000 := by omega
          have hn2 : (n : ℚ) ≤ 3000 := by exact_mod_cast hn
          linarith
        rw [if_neg (by simp [AwsEbsPricing.optTruthy]), if_neg (by simp [h]),
          max_eq_left hle]
        ring
  have hthroughput : ∀ tp : Option ℕ,
      (if ("gp3" : String) = "gp3" ∧ AwsEbsPricing.optTruthy tp = true
          ∧ 125 < tp.getD 0 then
        ((tp.getD 0 - 125 : ℕ) : ℚ) * AwsEbsPricing.DEFAULT_GP3_THROUGHPUT_PRICE
      else 0)
      = max 0 ((tp.getD 0 : ℚ) - 125) * 0.06 := by
    intro tp
    rcases tp with _ | m
    · norm_num [AwsEbsPricing.optTruthy]
    · simp only [Option.getD_some]
      by_cases h : 125 < m
      · have h0 : 0 < m := by omega
        rw [if_pos (by simp [AwsEbsPricing.optTruthy, h0, h]), cast_nat_sub_eq_max]
        rfl
      · have hle : (m : ℚ) - 125 ≤ 0 := by
          have hm : m ≤ 125 := by omega
          have hm2 : (m : ℚ) ≤ 125 := by exact_mod_cast hm
          linarith
        rw [if_neg (by simp [h]), max_eq_left hle]
        ring
  have hgen : ∀ (apiPrice : String → String → Option ℚ) (sizeGb : ℕ) (region : String)
      (iops throughputMbps : Option ℕ),
      AwsEbsPricing.calculate_ebs_monthly_cost apiPrice ("gp3") sizeGb region
          iops throughputMbps false
        = roundTo2 ((sizeGb : ℚ) * 0.08
            + max 0 ((iops.getD 0 : ℚ) - 3000) * 0.005
            + max 0 ((throughputMbps.getD 0 : ℚ) - 125) * 0.06) := by
    intro apiPrice sizeGb region iops throughputMbps
    show roundTo2 _ = roundTo2 _
    rw [hiops iops, hthroughput throughputMbps]
    have hprice : AwsEbsPricing.get_ebs_cost_per_gb apiPrice ("gp3") region false
        = 0.08 := rfl
    rw [hprice]
  refine ⟨hgen, ?_, ?_⟩
  · rw [hgen (fun _ _ => none) 100 ("us-east-1") (some 5000) none]
    simp only [Option.getD_some, Option.getD_none]
    norm_num [roundTo2, round_eq, max_def]
  · rw [hgen (fun _ _ => none) 100 ("us-east-1") none (some 500)]
    simp only [Option.getD_some, Option.getD_none]
    norm_num [roundTo2, round_eq, max_def]

/-- Helper: one-step unfolding of `dedupByVolumeId` on a cons cell. -/
lemma dedup_cons (v : EbsScanner.EBSVolume) (rest : List EbsScanner.EBSVolume) :
    EbsScanner.dedupByVolumeId (v :: rest)
      = v :: EbsScanner.dedupByVolumeId
          (rest.filter (fun w => decide (w.volumeId ≠ v.volumeId))) := by
  rw [EbsScanner.dedupByVolumeId]

/-- Helper: deduplication is the identity on a list with no repeated
volume ids. -/
lemma dedup_eq_self : ∀ {l : List EbsScanner.EBSVolume},
    (l.map (fun v => v.volumeId)).Nodup → EbsScanner.dedupByVolumeId l = l := by
  intro l
  induction l with
  | nil =>
    intro _
    rw [EbsScanner.dedupByVolumeId]
  | cons v rest ih =>
    intro h
    rw [List.map_cons, List.nodup_cons] at h
    obtain ⟨hv, hrest⟩ := h
    rw [dedup_cons]
    have hfil : rest.filter (fun w => decide (w.volumeId ≠ v.volumeId)) = rest := by
      rw [List.filter_eq_self]
      intro a ha
      exact decide_eq_true (fun hEq => hv (hEq ▸ List.mem_map_of_mem _ ha))
    rw [hfil, ih hrest]

/-- Helper: deduplicating a concatenation whose first part has no repeated
ids keeps the first part intact and keeps from the second part only the
elements whose id is absent from the first. -/
lemma dedup_append : ∀ (l1 l2 : List EbsScanner.EBSVolume),
    (l1.map (fun v => v.volumeId)).Nodup →
    EbsScanner.dedupByVolumeId (l1 ++ l2)
      = l1 ++ EbsScanner.dedupByVolumeId
          (l2.filter (fun w =>
            decide (w.volumeId ∉ l1.map (fun v => v.volumeId)))) := by
  intro l1
  induction l1 with
  | nil =>
    intro l2 _
    simp
  | cons v t ih =>
    intro l2 h
    rw [List.map_cons, List.nodup_cons] at h
    obtain ⟨hv, ht⟩ := h
    rw [List.cons_append, dedup_cons, List.filter_append]
    have hfil : t.filter (fun w => decide (w.volumeId ≠ v.volumeId)) = t := by
      rw [List.filter_eq_self]
      intro a ha
      exact decide_eq_true (fun hEq => hv (hEq ▸ List.mem_map_of_mem _ ha))
    rw [hfil, ih _ ht, List.filter_filter]
    have hpred : (fun (w : EbsScanner.EBSVolume) =>
        decide (w.volumeId ∉ t.map (fun v => v.volumeId))
          && decide (w.volumeId ≠ v.volumeId)) =
        (fun w => decide (w.volumeId ∉
          (v :: t).map (fun v => v.volumeId))) := by
      funext w
      simp only [List.map_cons, List.mem_cons, not_or, Bool.decide_and]
      rw [Bool.and_comm]
    rw [hpred, List.cons_append]

/-- C2: `total_potential_monthly_savings` equals the rounded sum of
per-volume monthly costs over the union of the unattached list and the
low-I/O list with each distinct `VolumeId` counted exactly once (first
occurrence kept) — not the sum of the two category totals. -/
theorem ebs_total_savings_dedup_union (apiPrice : String → String → Option ℚ)
    (cfg : EbsScanner.EBSConfig) (unattachedSrc allSrc : List EbsScanner.EBSVolume)
    (usePricingApi : Bool)
    (h1 : (unattachedSrc.map (fun v => v.volumeId)).Nodup)
    (h2 : (allSrc.map (fun v => v.volumeId)).Nodup) :
    (EbsScanner.analyze_ebs_volumes apiPrice cfg unattachedSrc allSrc
        usePricingApi).totalPotentialMonthlySavings
      = roundTo2 (((EbsScanner.dedupByVolumeId
          (unattachedSrc ++ EbsScanner.get_low_io_volumes cfg allSrc)).map
            (fun v => EbsScanner.calculate_monthly_cost apiPrice cfg v
              usePricingApi)).sum) := by
  have hlow : ((EbsScanner.get_low_io_volumes cfg allSrc).map
      (fun v => v.volumeId)).Nodup :=
    h2.sublist (List.Sublist.map _ (List.filter_sublist _))
  have hfil : (((EbsScanner.get_low_io_volumes cfg allSrc).filter
      (fun w => decide (w.volumeId ∉ unattachedSrc.map (fun v => v.volumeId)))).map
        (fun v => v.volumeId)).Nodup :=
    hlow.sublist (List.Sublist.map _ (List.filter_sublist _))
  rw [dedup_append _ _ h1, dedup_eq_self hfil, List.map_append, List.sum_append]
  rfl

/-- Witness for C2 at a concrete input: one unattached volume `vol-1` that
is also low-I/O, plus a second low-I/O-only volume `vol-2`. -/
theorem ebs_total_savings_dedup_union_witness :
    (([EbsScanner.EBSVolume.mk ("vol-1") ("gp2") 100 none none [] []].map
        (fun v => v.volumeId)).Nodup)
    ∧ (([EbsScanner.EBSVolume.mk ("vol-1") ("gp2") 100 none none [] [],
         EbsScanner.EBSVolume.mk ("vol-2") ("gp3") 50 none none [] []].map
        (fun v => v.volumeId)).Nodup)
    ∧ ((EbsScanner.analyze_ebs_volumes (fun _ _ => none)
          (EbsScanner.EBSConfig.mk ("us-east-1") 14 100)
          [EbsScanner.EBSVolume.mk ("vol-1") ("gp2") 100 none none [] []]
          [EbsScanner.EBSVolume.mk ("vol-1") ("gp2") 100 none none [] [],
           EbsScanner.EBSVolume.mk ("vol-2") ("gp3") 50 none none [] []]
          false).totalPotentialMonthlySavings
      = roundTo2 (((EbsScanner.dedupByVolumeId
          ([EbsScanner.EBSVolume.mk ("vol-1") ("gp2") 100 none none [] []]
            ++ EbsScanner.get_low_io_volumes
                (EbsScanner.EBSConfig.mk ("us-east-1") 14 100)
                [EbsScanner.EBSVolume.mk ("vol-1") ("gp2") 100 none none [] [],
                 EbsScanner.EBSVolume.mk ("vol-2") ("gp3") 50 none none [] []])).map
            (fun v => EbsScanner.calculate_monthly_cost (fun _ _ => none)
              (EbsScanner.EBSConfig.mk ("us-east-1") 14 100) v false)).sum)) :=
  ⟨by decide, by decide,
    ebs_total_savings_dedup_union (fun _ _ => none)
      (EbsScanner.EBSConfig.mk ("us-east-1") 14 100) _ _ false
      (by decide) (by decide)⟩

end CloudCostSentinel
